import Mathlib

/-!
Verification of the Twilio–ElevenLabs integration server (`src/main.py`).

The Python source is shallowly embedded: pure fragments become Lean
functions on `String` / `List` / `Nat`; the datastore and external HTTP
collaborators become explicit parameters (query results injected as
values, exceptions as `Except.error`); machine words in the hash code are
`Nat` with explicit `% 2^32`.  Strings are modelled over Lean `Char`
lists; Python's `str.strip()` is modelled over its ASCII whitespace set.
-/

set_option maxRecDepth 10000
set_option maxHeartbeats 4000000

namespace Spec2Proof

/-! ## Phone normalization (`main.py` lines 47–50, 272–274, 312–314, 485–487)

Python: `phone_number.strip().replace(" ", "")`, then prefix `"+"` if the
result does not already start with `"+"`. -/

/-- The ASCII whitespace characters removed by Python's `str.strip()`. -/
def isPySpace (c : Char) : Bool :=
  c = ' ' || c = '\t' || c = '\n' || c = '\x0d' || c = '\x0b' || c = '\x0c'

/-- `str.strip()` on a character list: drop leading and trailing whitespace. -/
def stripChars (l : List Char) : List Char :=
  ((l.dropWhile isPySpace).reverse.dropWhile isPySpace).reverse

/-- `str.strip()`. -/
def pyStrip (s : String) : String :=
  String.mk (stripChars s.data)

/-- The stripped, space-free form: `phone_number.strip().replace(" ", "")`. -/
def normCore (l : List Char) : List Char :=
  (stripChars l).filter (fun c => c ≠ ' ')

/-- The normalization applied to every phone number in `main.py`:
`strip()`, remove every `' '` (`replace(" ", "")`), then prefix `'+'`
unless the result already starts with `'+'` (`startswith("+")`). -/
def normChars (l : List Char) : List Char :=
  if (normCore l).head? = some '+' then normCore l else '+' :: normCore l

/-- Phone normalization as performed on `String`s by the server. -/
def pyNormalize (s : String) : String :=
  String.mk (normChars s.data)

/-! Helper lemmas for idempotence of `pyNormalize`. -/

theorem dropWhile_eq_self_of_head (p : Char → Bool) (l : List Char)
    (h : ∀ c, l.head? = some c → p c = false) : l.dropWhile p = l := by
  cases l with
  | nil => rfl
  | cons a t =>
    have ha : p a = false := h a rfl
    simp [List.dropWhile, ha]

theorem head_dropWhile_false (p : Char → Bool) (l : List Char) (c : Char)
    (h : (l.dropWhile p).head? = some c) : p c = false := by
  induction l with
  | nil => simp [List.dropWhile] at h
  | cons a t ih =>
    by_cases hpa : p a = true
    · simp [List.dropWhile, hpa] at h
      exact ih h
    · simp [List.dropWhile, hpa] at h
      subst h
      simpa using hpa

theorem head_filter_of_head (p q : Char → Bool) (l : List Char)
    (hl : ∀ c, l.head? = some c → p c = false)
    (hpq : ∀ c, p c = false → q c = true) (c : Char)
    (h : (l.filter q).head? = some c) : p c = false := by
  cases l with
  | nil => simp [List.filter] at h
  | cons a t =>
    have ha : p a = false := hl a rfl
    have hqa : q a = true := hpq a ha
    simp [List.filter, hqa] at h
    subst h
    exact ha

/-- After stripping, the reversed string starts (i.e. the string ends)
with a non-whitespace character, and this survives space removal. -/
theorem stripChars_reverse_spec (l : List Char) (c : Char)
    (h : (((stripChars l).filter (fun c => c ≠ ' ')).reverse).head? = some c) :
    isPySpace c = false := by
  unfold stripChars at h
  rw [List.filter_reverse] at h
  rw [List.reverse_reverse] at h
  exact head_filter_of_head isPySpace (fun c => c ≠ ' ')
    (((l.dropWhile isPySpace).reverse).dropWhile isPySpace)
    (fun c hc => head_dropWhile_false isPySpace _ c hc)
    (by
      intro d hd
      simp [isPySpace] at hd
      simp [hd.1])
    c h

theorem normCore_last (l : List Char) (c : Char)
    (h : (normCore l).reverse.head? = some c) : isPySpace c = false :=
  stripChars_reverse_spec l c h

theorem normChars_head (l : List Char) :
    (normChars l).head? = some '+' := by
  unfold normChars
  split
  · next h => exact h
  · rfl

theorem normChars_last (l : List Char) (c : Char)
    (h : (normChars l).reverse.head? = some c) : isPySpace c = false := by
  unfold normChars at h
  split at h
  · exact normCore_last l c h
  · rw [List.reverse_cons] at h
    cases hyr : (normCore l).reverse with
    | nil =>
      rw [hyr] at h
      simp at h
      subst h
      rfl
    | cons a as =>
      rw [hyr] at h
      simp at h
      apply normCore_last l c
      rw [hyr]
      simp [h]

theorem normChars_no_space (l : List Char) (c : Char) (hc : c ∈ normChars l) :
    c ≠ ' ' := by
  have hcore : ∀ d : Char, d ∈ normCore l → d ≠ ' ' := by
    intro d hd
    have := List.of_mem_filter hd
    simpa using this
  unfold normChars at hc
  split at hc
  · exact hcore c hc
  · rcases List.mem_cons.mp hc with hc | hc
    · subst hc; decide
    · exact hcore c hc

theorem stripChars_normChars (l : List Char) :
    stripChars (normChars l) = normChars l := by
  unfold stripChars
  have h1 : (normChars l).dropWhile isPySpace = normChars l := by
    apply dropWhile_eq_self_of_head
    intro c hc
    rw [normChars_head l] at hc
    injection hc with hc
    subst hc
    rfl
  rw [h1]
  have h2 : ((normChars l).reverse).dropWhile isPySpace = (normChars l).reverse := by
    apply dropWhile_eq_self_of_head
    intro c hc
    exact normChars_last l c hc
  rw [h2, List.reverse_reverse]

theorem filter_normChars (l : List Char) :
    (normChars l).filter (fun c => c ≠ ' ') = normChars l := by
  apply List.filter_eq_self.mpr
  intro c hc
  simpa using normChars_no_space l c hc

theorem normCore_normChars (l : List Char) :
    normCore (normChars l) = normChars l := by
  unfold normCore
  rw [stripChars_normChars, filter_normChars]

theorem normChars_idem (l : List Char) :
    normChars (normChars l) = normChars l := by
  calc normChars (normChars l)
      = if (normCore (normChars l)).head? = some '+' then normCore (normChars l)
        else '+' :: normCore (normChars l) := rfl
    _ = if (normChars l).head? = some '+' then normChars l
        else '+' :: normChars l := by rw [normCore_normChars]
    _ = normChars l := by rw [normChars_head]; simp

/-- **C9** — Phone normalization (strip surrounding whitespace, remove
internal spaces, prefix `"+"` when absent) is idempotent:
`normalize (normalize x) = normalize x` for every input string; and
concretely `normalize " 1234567890 " = "+1234567890"`. -/
theorem phone_normalize_idempotent :
    (∀ x : String, pyNormalize (pyNormalize x) = pyNormalize x) ∧
    pyNormalize " 1234567890 " = "+1234567890" := by
  constructor
  · intro x
    unfold pyNormalize
    simp only []
    rw [normChars_idem]
  · decide

/-! ## SHA-256 and HMAC (the `hashlib` / `hmac` calls in `handle_call_end`)

FIPS 180-4 SHA-256 over byte lists (`Nat` values `< 256`), 32-bit words
as `Nat` reduced mod `2^32`, and RFC 2104 HMAC, matching
`hmac.new(key=..., msg=..., digestmod=hashlib.sha256).hexdigest()`. -/

/-- 32-bit modulus. -/
def M32 : Nat := 4294967296

/-- Addition mod `2^32`. -/
def add32 (a b : Nat) : Nat := (a + b) % M32

/-- Right rotation of a 32-bit word. -/
def rotr32 (x n : Nat) : Nat := ((x >>> n) ||| (x <<< (32 - n))) % M32

def sha_ch (x y z : Nat) : Nat := (x &&& y) ^^^ ((x ^^^ 4294967295) &&& z)

def sha_maj (x y z : Nat) : Nat := (x &&& y) ^^^ (x &&& z) ^^^ (y &&& z)

def bigSigma0 (x : Nat) : Nat := rotr32 x 2 ^^^ rotr32 x 13 ^^^ rotr32 x 22

def bigSigma1 (x : Nat) : Nat := rotr32 x 6 ^^^ rotr32 x 11 ^^^ rotr32 x 25

def smallSigma0 (x : Nat) : Nat := rotr32 x 7 ^^^ rotr32 x 18 ^^^ (x >>> 3)

def smallSigma1 (x : Nat) : Nat := rotr32 x 17 ^^^ rotr32 x 19 ^^^ (x >>> 10)

/-- The 64 SHA-256 round constants (FIPS 180-4 §4.2.2, in decimal). -/
def shaK : List Nat :=
  [1116352408, 1899447441, 3049323471, 3921009573,
   961987163, 1508970993, 2453635748, 2870763221,
   3624381080, 310598401, 607225278, 1426881987,
   1925078388, 2162078206, 2614888103, 3248222580,
   3835390401, 4022224774, 264347078, 604807628,
   770255983, 1249150122, 1555081692, 1996064986,
   2554220882, 2821834349, 2952996808, 3210313671,
   3336571891, 3584528711, 113926993, 338241895,
   666307205, 773529912, 1294757372, 1396182291,
   1695183700, 1986661051, 2177026350, 2456956037,
   2730485921, 2820302411, 3259730800, 3345764771,
   3516065817, 3600352804, 4094571909, 275423344,
   430227734, 506948616, 659060556, 883997877,
   958139571, 1322822218, 1537002063, 1747873779,
   1955562222, 2024104815, 2227730452, 2361852424,
   2428436474, 2756734187, 3204031479, 3329325298]

/-- A big-endian 64-bit length field, as 8 bytes. -/
def be64 (n : Nat) : List Nat :=
  [(n >>> 56) &&& 255, (n >>> 48) &&& 255, (n >>> 40) &&& 255, (n >>> 32) &&& 255,
   (n >>> 24) &&& 255, (n >>> 16) &&& 255, (n >>> 8) &&& 255, n &&& 255]

/-- SHA-256 padding: `0x80`, zeros to 56 mod 64, then the bit length. -/
def padMessage (msg : List Nat) : List Nat :=
  let zeros := (119 - msg.length % 64) % 64
  msg ++ [0x80] ++ List.replicate zeros 0 ++ be64 (msg.length * 8)

/-- Big-endian 4-byte groups into 32-bit words. -/
def toWords : List Nat → List Nat
  | b0 :: b1 :: b2 :: b3 :: rest =>
      (((b0 * 256 + b1) * 256 + b2) * 256 + b3) :: toWords rest
  | _ => []

/-- One step of the message-schedule extension, appending word
`σ1(w[n-2]) + w[n-7] + σ0(w[n-15]) + w[n-16]`. -/
def nextW (ws : List Nat) : Nat :=
  let n := ws.length
  add32 (add32 (smallSigma1 (ws.getD (n - 2) 0)) (ws.getD (n - 7) 0))
        (add32 (smallSigma0 (ws.getD (n - 15) 0)) (ws.getD (n - 16) 0))

/-- Extend a 16-word schedule by `k` words. -/
def extendW : Nat → List Nat → List Nat
  | 0, ws => ws
  | k + 1, ws => extendW k (ws ++ [nextW ws])

/-- The eight 32-bit working variables of SHA-256. -/
structure H8 where
  a : Nat
  b : Nat
  c : Nat
  d : Nat
  e : Nat
  f : Nat
  g : Nat
  h : Nat
deriving DecidableEq, Repr

/-- The SHA-256 initial hash value (FIPS 180-4 §5.3.3, in decimal). -/
def shaH0 : H8 :=
  ⟨1779033703, 3144134277, 1013904242, 2773480762,
   1359893119, 2600822924, 528734635, 1541459225⟩

/-- One SHA-256 round. -/
def shaRound (s : H8) (kw : Nat × Nat) : H8 :=
  let t1 := add32 s.h (add32 (bigSigma1 s.e) (add32 (sha_ch s.e s.f s.g) (add32 kw.1 kw.2)))
  let t2 := add32 (bigSigma0 s.a) (sha_maj s.a s.b s.c)
  ⟨add32 t1 t2, s.a, s.b, s.c, add32 s.d t1, s.e, s.f, s.g⟩

/-- Compression of one 64-byte block into the running state. -/
def compress (st : H8) (block : List Nat) : H8 :=
  let ws := extendW 48 (toWords block)
  let f := (shaK.zip ws).foldl shaRound st
  ⟨add32 st.a f.a, add32 st.b f.b, add32 st.c f.c, add32 st.d f.d,
   add32 st.e f.e, add32 st.f f.f, add32 st.g f.g, add32 st.h f.h⟩

/-- Split into 64-byte blocks, with structural fuel so that the kernel
can evaluate it (the fuel `l.length` always suffices). -/
def toBlocksF : Nat → List Nat → List (List Nat)
  | 0, _ => []
  | fuel + 1, l => if l.isEmpty then [] else l.take 64 :: toBlocksF fuel (l.drop 64)

/-- Split a (padded) message into 64-byte blocks. -/
def toBlocks (l : List Nat) : List (List Nat) :=
  toBlocksF l.length l

/-- A 32-bit word as 4 big-endian bytes. -/
def wordBytes (w : Nat) : List Nat :=
  [(w >>> 24) &&& 255, (w >>> 16) &&& 255, (w >>> 8) &&& 255, w &&& 255]

/-- Serialize the final state as the 32-byte digest. -/
def digestBytes (st : H8) : List Nat :=
  wordBytes st.a ++ wordBytes st.b ++ wordBytes st.c ++ wordBytes st.d ++
  wordBytes st.e ++ wordBytes st.f ++ wordBytes st.g ++ wordBytes st.h

/-- SHA-256 of a byte list: the 32-byte digest. -/
def sha256Bytes (msg : List Nat) : List Nat :=
  digestBytes ((toBlocks (padMessage msg)).foldl compress shaH0)

/-- RFC 2104 HMAC-SHA256 (block size 64), as `hmac.new(..., hashlib.sha256)`. -/
def hmacSha256 (key msg : List Nat) : List Nat :=
  let k0 := if 64 < key.length then sha256Bytes key else key
  let kp := k0 ++ List.replicate (64 - k0.length) 0
  let ipadded := kp.map (fun b => b ^^^ 0x36)
  let opadded := kp.map (fun b => b ^^^ 0x5c)
  sha256Bytes (opadded ++ sha256Bytes (ipadded ++ msg))

/-- Lowercase hex digit: `0`–`9` then `a`–`f`. -/
def hexDigit (n : Nat) : Char :=
  if n < 10 then Char.ofNat (48 + n) else Char.ofNat (87 + n)

/-- `.hexdigest()`: lowercase hex rendering of a byte list. -/
def hexdigest (bytes : List Nat) : String :=
  String.mk (bytes.flatMap (fun b => [hexDigit (b / 16), hexDigit (b % 16)]))

/-- UTF-8 encoding of one character (`str.encode("utf-8")`, per scalar). -/
def utf8Char (c : Char) : List Nat :=
  let n := c.toNat
  if n < 0x80 then [n]
  else if n < 0x800 then
    [0xC0 ||| (n >>> 6), 0x80 ||| (n &&& 0x3F)]
  else if n < 0x10000 then
    [0xE0 ||| (n >>> 12), 0x80 ||| ((n >>> 6) &&& 0x3F), 0x80 ||| (n &&& 0x3F)]
  else
    [0xF0 ||| (n >>> 18), 0x80 ||| ((n >>> 12) &&& 0x3F),
     0x80 ||| ((n >>> 6) &&& 0x3F), 0x80 ||| (n &&& 0x3F)]

/-- `str.encode("utf-8")` as a byte list. -/
def utf8 (s : String) : List Nat :=
  s.data.flatMap utf8Char

/-- The exact signature computation of `handle_call_end` lines 214–219:
`hmac.new(key=secret.encode(), msg=message.encode(), hashlib.sha256).hexdigest()`. -/
def hmacSha256HexStr (secret msg : String) : String :=
  hexdigest (hmacSha256 (utf8 secret) (utf8 msg))

/-! ## Webhook authentication (`handle_call_end`, `main.py` lines 194–225)

The handler's outcome up to and including signature verification.
`AuthOutcome.serverError` stands for an exception escaping the handler:
there is no `try` around lines 200–225, so a `ValueError` from
`dict(...)` at line 201, or a `TypeError` from `hmac.compare_digest` at
line 223 (non-ASCII argument), propagates and the framework answers 500. -/

inductive AuthOutcome where
  | unauthorized (detail : String)
  | serverError
  | ok (timestamp signature : String)
deriving DecidableEq, Repr

/-- The HTTP status each outcome maps to (`HTTPException(status_code=401)`,
an unhandled exception → 500, success → 200). -/
def httpStatus : AuthOutcome → Nat
  | .unauthorized _ => 401
  | .serverError => 500
  | .ok _ _ => 200

/-- Split a character list at every occurrence of `sep` (Python
`str.split(sep)` for a one-character separator: `"".split(s) = [""]`,
adjacent separators give empty fields). -/
def splitOnChar (sep : Char) (l : List Char) : List (List Char) :=
  l.foldr
    (fun c acc =>
      match acc with
      | [] => [[c]]
      | g :: gs => if c = sep then [] :: g :: gs else (c :: g) :: gs)
    [[]]

/-- Python `str.split` with a one-character separator, on `String`s. -/
def pySplit (s : String) (sep : Char) : List String :=
  (splitOnChar sep s.data).map String.mk

/-- Line 201: `dict(part.split("=") for part in signature_header.split(","))`.
`none` models the `ValueError` raised when any part does not split into
exactly two pieces. -/
def parseSigHeader (h : String) : Option (List (String × String)) :=
  let kvs := (pySplit h ',').map (fun part => pySplit part '=')
  if kvs.all (fun kv => kv.length == 2) then
    some (kvs.map (fun kv => (kv.getD 0 "", kv.getD 1 "")))
  else none

/-- Python `dict` lookup built from a key/value sequence: the last
occurrence of a duplicated key wins; `None` when absent. -/
def pyDictGet (ps : List (String × String)) (k : String) : Option String :=
  (ps.reverse.find? (fun p => p.1 == k)).map (fun p => p.2)

/-- Python falsiness of an optional string (`not x`): `None` or `""`. -/
def pyFalsyS (o : Option String) : Bool :=
  match o with
  | none => true
  | some s => s == ""

/-- Is every character of the string ASCII? -/
def isAsciiStr (s : String) : Bool :=
  s.data.all (fun c => decide (c.toNat < 128))

/-- `hmac.compare_digest` on `str` arguments: equality of the two
digests when both are ASCII-only; `none` models the `TypeError` it
raises when either argument contains a non-ASCII character.  (The
constant-time execution profile is a timing property outside the
functional model.) -/
def compareDigest (a b : String) : Option Bool :=
  if isAsciiStr a && isAsciiStr b then some (a == b) else none

/-- Lines 194–225 of `handle_call_end`, parameterized by the HMAC
function so that "the HMAC is not computed" is expressible as
independence from `hmacFn`.  Line 196's `if not signature_header` also
catches an empty header value; a `TypeError` from `compare_digest`
escapes the handler (no surrounding `try`), answered 500. -/
def authenticate (hmacFn : String → String → String) (secret : String)
    (header : Option String) (body : String) : AuthOutcome :=
  match header with
  | none => .unauthorized "Missing ElevenLabs-Signature header"
  | some h =>
    if h == "" then .unauthorized "Missing ElevenLabs-Signature header"
    else
      match parseSigHeader h with
      | none => .serverError
      | some parts =>
        let timestamp := pyDictGet parts "t"
        let provided := pyDictGet parts "v0"
        if pyFalsyS timestamp || pyFalsyS provided then
          .unauthorized "Invalid ElevenLabs-Signature format"
        else
          let expected := hmacFn secret (timestamp.getD "" ++ "." ++ body)
          match compareDigest expected (provided.getD "") with
          | none => .serverError
          | some true => .ok (timestamp.getD "") (provided.getD "")
          | some false => .unauthorized "Invalid signature"

/-- The authentication prefix of `handle_call_end` with the real
HMAC-SHA256 from `hashlib`/`hmac`. -/
def verifyCallEnd (secret : String) (header : Option String) (body : String) : AuthOutcome :=
  authenticate hmacSha256HexStr secret header body

/-- Flip the low bit of byte `i` of an ASCII string (a single-byte
corruption of the request body). -/
def flipByte (s : String) (i : Nat) : String :=
  String.mk (s.data.set i (Char.ofNat ((s.data.getD i 'a').toNat ^^^ 1)))

/-! Digest-shape lemmas: an HMAC-SHA256 hex digest is 64 characters, in
particular never the empty (falsy) string. -/

theorem length_digestBytes (st : H8) : (digestBytes st).length = 32 := by
  simp [digestBytes, wordBytes]

theorem length_sha256Bytes (msg : List Nat) : (sha256Bytes msg).length = 32 := by
  unfold sha256Bytes
  exact length_digestBytes _

theorem length_hexdigest (bs : List Nat) : (hexdigest bs).length = 2 * bs.length := by
  have h : (bs.flatMap (fun b => [hexDigit (b / 16), hexDigit (b % 16)])).length
      = 2 * bs.length := by
    induction bs with
    | nil => rfl
    | cons a t ih =>
      simp only [List.flatMap_cons, List.length_append, ih, List.length_cons, List.length_nil]
      omega
  simpa [hexdigest, String.length] using h

theorem length_hmacSha256 (key msgB : List Nat) : (hmacSha256 key msgB).length = 32 := by
  unfold hmacSha256
  dsimp only
  exact length_sha256Bytes _

theorem hmacHex_ne_empty (s m : String) : hmacSha256HexStr s m ≠ "" := by
  intro h
  have h1 : (hmacSha256HexStr s m).length = 64 := by
    unfold hmacSha256HexStr
    rw [length_hexdigest, length_hmacSha256]
  rw [h] at h1
  exact absurd h1 (by decide)

/-! ASCII-shape lemmas: an HMAC-SHA256 hex digest is ASCII-only, so
`hmac.compare_digest` never raises on it (only the provided value can). -/

theorem hexDigit_ascii (n : Nat) (h : n < 16) : (hexDigit n).toNat < 128 := by
  interval_cases n <;> decide

theorem and255_lt (x : Nat) : x &&& 255 < 256 :=
  lt_of_le_of_lt Nat.and_le_right (by norm_num)

theorem mem_wordBytes_lt (w b : Nat) (h : b ∈ wordBytes w) : b < 256 := by
  simp [wordBytes] at h
  rcases h with rfl | rfl | rfl | rfl <;> exact and255_lt _

theorem mem_digestBytes_lt (st : H8) (b : Nat) (h : b ∈ digestBytes st) : b < 256 := by
  simp only [digestBytes, List.mem_append] at h
  rcases h with ((((((h | h) | h) | h) | h) | h) | h) | h <;> exact mem_wordBytes_lt _ _ h

theorem mem_sha256Bytes_lt (msg : List Nat) (b : Nat) (h : b ∈ sha256Bytes msg) : b < 256 := by
  unfold sha256Bytes at h
  exact mem_digestBytes_lt _ _ h

theorem isAsciiStr_hexdigest (bs : List Nat) (h : ∀ b ∈ bs, b < 256) :
    isAsciiStr (hexdigest bs) = true := by
  rw [show isAsciiStr (hexdigest bs) =
      (bs.flatMap (fun b => [hexDigit (b / 16), hexDigit (b % 16)])).all
        (fun c => decide (c.toNat < 128)) from rfl]
  rw [List.all_eq_true]
  intro c hc
  rw [List.mem_flatMap] at hc
  obtain ⟨b, hb, hcb⟩ := hc
  have hb256 := h b hb
  have hdiv : b / 16 < 16 := by omega
  have hmod : b % 16 < 16 := Nat.mod_lt _ (by norm_num)
  rcases List.mem_cons.mp hcb with rfl | hcb2
  · simpa using hexDigit_ascii _ hdiv
  · rcases List.mem_cons.mp hcb2 with rfl | hcb3
    · simpa using hexDigit_ascii _ hmod
    · simp at hcb3

theorem isAscii_hmacHex (s m : String) : isAsciiStr (hmacSha256HexStr s m) = true := by
  unfold hmacSha256HexStr
  apply isAsciiStr_hexdigest
  intro b hb
  unfold hmacSha256 at hb
  dsimp only at hb
  exact mem_sha256Bytes_lt _ _ hb

/-! Behaviour of `authenticate` on each branch, given the parsed header. -/

theorem parseSigHeader_empty : parseSigHeader "" = none := rfl

theorem parse_some_ne_empty (hdr : String) (parts : List (String × String))
    (hp : parseSigHeader hdr = some parts) : hdr ≠ "" := by
  intro h
  subst h
  rw [parseSigHeader_empty] at hp
  exact Option.noConfusion hp

theorem auth_missing_header (f : String → String → String) (S B : String) :
    authenticate f S none B = .unauthorized "Missing ElevenLabs-Signature header" := rfl

theorem auth_missing_header_empty (f : String → String → String) (S B : String) :
    authenticate f S (some "") B = .unauthorized "Missing ElevenLabs-Signature header" := rfl

theorem auth_parse_fail (f : String → String → String) (S B hdr : String)
    (hne : hdr ≠ "") (hp : parseSigHeader hdr = none) :
    authenticate f S (some hdr) B = .serverError := by
  unfold authenticate
  dsimp only
  rw [if_neg (by simp [hne])]
  rw [hp]

theorem auth_format_fail (f : String → String → String) (S B hdr : String)
    (parts : List (String × String))
    (hp : parseSigHeader hdr = some parts)
    (hff : (pyFalsyS (pyDictGet parts "t") || pyFalsyS (pyDictGet parts "v0")) = true) :
    authenticate f S (some hdr) B = .unauthorized "Invalid ElevenLabs-Signature format" := by
  have hne : hdr ≠ "" := parse_some_ne_empty hdr parts hp
  unfold authenticate
  dsimp only
  rw [if_neg (by simp [hne])]
  rw [hp]
  simp [hff]

theorem auth_accept (f : String → String → String) (S T B hdr : String)
    (parts : List (String × String))
    (hp : parseSigHeader hdr = some parts)
    (ht : pyDictGet parts "t" = some T)
    (hv : pyDictGet parts "v0" = some (f S (T ++ "." ++ B)))
    (hT : T ≠ "") (hD : f S (T ++ "." ++ B) ≠ "")
    (hA : isAsciiStr (f S (T ++ "." ++ B)) = true) :
    authenticate f S (some hdr) B = .ok T (f S (T ++ "." ++ B)) := by
  have hne : hdr ≠ "" := parse_some_ne_empty hdr parts hp
  unfold authenticate
  dsimp only
  rw [if_neg (by simp [hne])]
  rw [hp]
  simp only [ht, hv, pyFalsyS, Option.getD_some]
  simp [hT, hD, compareDigest, hA]

theorem auth_reject (f : String → String → String) (S T B D hdr : String)
    (parts : List (String × String))
    (hp : parseSigHeader hdr = some parts)
    (ht : pyDictGet parts "t" = some T)
    (hv : pyDictGet parts "v0" = some D)
    (hT : T ≠ "") (hD : D ≠ "")
    (hne : D ≠ f S (T ++ "." ++ B))
    (hEA : isAsciiStr (f S (T ++ "." ++ B)) = true)
    (hDA : isAsciiStr D = true) :
    authenticate f S (some hdr) B = .unauthorized "Invalid signature" := by
  have hne0 : hdr ≠ "" := parse_some_ne_empty hdr parts hp
  unfold authenticate
  dsimp only
  rw [if_neg (by simp [hne0])]
  rw [hp]
  simp only [ht, hv, pyFalsyS, Option.getD_some]
  have hbeq : (f S (T ++ "." ++ B) == D) = false := beq_eq_false_iff_ne.mpr (Ne.symm hne)
  simp [hT, hD, compareDigest, hEA, hDA, hbeq]

theorem auth_type_error (f : String → String → String) (S T B D hdr : String)
    (parts : List (String × String))
    (hp : parseSigHeader hdr = some parts)
    (ht : pyDictGet parts "t" = some T)
    (hv : pyDictGet parts "v0" = some D)
    (hT : T ≠ "") (hD : D ≠ "")
    (hDA : isAsciiStr D = false) :
    authenticate f S (some hdr) B = .serverError := by
  have hne : hdr ≠ "" := parse_some_ne_empty hdr parts hp
  unfold authenticate
  dsimp only
  rw [if_neg (by simp [hne])]
  rw [hp]
  simp only [ht, hv, pyFalsyS, Option.getD_some]
  simp [hT, hD, compareDigest, hDA]

/-- **C1 counterexample** — A request whose provided `v0` value differs
from the expected digest is not always answered 401: at header
`"t=1,v0=é"` the non-ASCII value makes `hmac.compare_digest` raise
`TypeError` outside any `try` (line 223), so the request ends in a 500
server error, not an unauthorized rejection. -/
theorem call_end_signature_verification_counterexample :
    verifyCallEnd "whsec_test" (some "t=1,v0=é") "abc" = .serverError ∧
    httpStatus (verifyCallEnd "whsec_test" (some "t=1,v0=é") "abc") ≠ 401 ∧
    "é" ≠ hmacSha256HexStr "whsec_test" ("1" ++ "." ++ "abc") := by
  have h : verifyCallEnd "whsec_test" (some "t=1,v0=é") "abc" = .serverError := by decide
  refine ⟨h, by rw [h]; decide, ?_⟩
  intro he
  have h1 : (hmacSha256HexStr "whsec_test" ("1" ++ "." ++ "abc")).length = 64 := by
    unfold hmacSha256HexStr
    rw [length_hexdigest, length_hmacSha256]
  rw [← he] at h1
  exact absurd h1 (by decide)

/-- **C1 (amended)** — The call-end webhook accepts a request exactly
when the header's `v0` value equals the lowercase hex HMAC-SHA256 digest
of `timestamp ++ "." ++ body` under the secret, and answers 401
"Invalid signature" when the provided digest is an ASCII string that
differs from that value; a `v0` containing a non-ASCII character instead
makes `compare_digest` raise, ending in a 500 server error.  Concretely,
for a valid signature over body `"abc"`, flipping any single byte of the
body makes verification fail. -/
theorem call_end_signature_verification :
    (∀ (S T B hdr : String) (parts : List (String × String)),
        parseSigHeader hdr = some parts →
        pyDictGet parts "t" = some T →
        pyDictGet parts "v0" = some (hmacSha256HexStr S (T ++ "." ++ B)) →
        T ≠ "" →
        verifyCallEnd S (some hdr) B = .ok T (hmacSha256HexStr S (T ++ "." ++ B))) ∧
    (∀ (S T B D hdr : String) (parts : List (String × String)),
        parseSigHeader hdr = some parts →
        pyDictGet parts "t" = some T →
        pyDictGet parts "v0" = some D →
        T ≠ "" → D ≠ "" → isAsciiStr D = true →
        D ≠ hmacSha256HexStr S (T ++ "." ++ B) →
        verifyCallEnd S (some hdr) B = .unauthorized "Invalid signature") ∧
    (∀ (S T B D hdr : String) (parts : List (String × String)),
        parseSigHeader hdr = some parts →
        pyDictGet parts "t" = some T →
        pyDictGet parts "v0" = some D →
        T ≠ "" → D ≠ "" → isAsciiStr D = false →
        verifyCallEnd S (some hdr) B = .serverError) ∧
    (hmacSha256HexStr "whsec_test" ("1712345678" ++ "." ++ "abc") =
        "fa6a38710c9a3a3e37cd4e46aa7a2e7dd66b2511c35d18fd3e1c433971e7441a" ∧
      verifyCallEnd "whsec_test"
        (some "t=1712345678,v0=fa6a38710c9a3a3e37cd4e46aa7a2e7dd66b2511c35d18fd3e1c433971e7441a")
        "abc" =
          .ok "1712345678" "fa6a38710c9a3a3e37cd4e46aa7a2e7dd66b2511c35d18fd3e1c433971e7441a" ∧
      ∀ i, i < 3 →
        verifyCallEnd "whsec_test"
          (some "t=1712345678,v0=fa6a38710c9a3a3e37cd4e46aa7a2e7dd66b2511c35d18fd3e1c433971e7441a")
          (flipByte "abc" i) = .unauthorized "Invalid signature") := by
  refine ⟨?_, ?_, ?_, by decide, by decide, by decide⟩
  · intro S T B hdr parts hp ht hv hT
    exact auth_accept hmacSha256HexStr S T B hdr parts hp ht hv hT
      (hmacHex_ne_empty _ _) (isAscii_hmacHex _ _)
  · intro S T B D hdr parts hp ht hv hT hD hDA hne
    exact auth_reject hmacSha256HexStr S T B D hdr parts hp ht hv hT hD hne
      (isAscii_hmacHex _ _) hDA
  · intro S T B D hdr parts hp ht hv hT hD hDA
    exact auth_type_error hmacSha256HexStr S T B D hdr parts hp ht hv hT hD hDA

/-- Witness for C1: the valid signature for body `"abc"` is accepted, a
differing ASCII digest is rejected 401, and a non-ASCII `v0` value ends
in the server error, at concrete inputs. -/
theorem call_end_signature_verification_witness :
    verifyCallEnd "whsec_test"
      (some "t=1712345678,v0=fa6a38710c9a3a3e37cd4e46aa7a2e7dd66b2511c35d18fd3e1c433971e7441a")
      "abc" =
        .ok "1712345678" "fa6a38710c9a3a3e37cd4e46aa7a2e7dd66b2511c35d18fd3e1c433971e7441a" ∧
    verifyCallEnd "whsec_test" (some "t=1712345678,v0=deadbeef") "abc" =
      .unauthorized "Invalid signature" ∧
    verifyCallEnd "whsec_test" (some "t=1712345678,v0=ü") "abc" = .serverError := by
  have hd : hmacSha256HexStr "whsec_test" ("1712345678" ++ "." ++ "abc") =
      "fa6a38710c9a3a3e37cd4e46aa7a2e7dd66b2511c35d18fd3e1c433971e7441a" := by decide
  refine ⟨?_, ?_, ?_⟩
  · have h := call_end_signature_verification.1 "whsec_test" "1712345678" "abc"
      "t=1712345678,v0=fa6a38710c9a3a3e37cd4e46aa7a2e7dd66b2511c35d18fd3e1c433971e7441a"
      [("t", "1712345678"),
       ("v0", "fa6a38710c9a3a3e37cd4e46aa7a2e7dd66b2511c35d18fd3e1c433971e7441a")]
      (by decide) (by decide) (by rw [hd]; decide) (by decide)
    rw [hd] at h
    exact h
  · exact call_end_signature_verification.2.1 "whsec_test" "1712345678" "abc" "deadbeef"
      "t=1712345678,v0=deadbeef" [("t", "1712345678"), ("v0", "deadbeef")]
      (by decide) (by decide) (by decide) (by decide) (by decide) (by decide)
      (by rw [hd]; decide)
  · exact call_end_signature_verification.2.2.1 "whsec_test" "1712345678" "abc" "ü"
      "t=1712345678,v0=ü" [("t", "1712345678"), ("v0", "ü")]
      (by decide) (by decide) (by decide) (by decide) (by decide) (by decide)

/-- **C2 counterexample** — The digest-mismatch failure mode does not
always produce the unauthorized outcome: at header `"t=2,v0=ß"` the
provided value differs from the expected digest, yet
`hmac.compare_digest` raises `TypeError` on the non-ASCII value (line
223, outside any `try`) and the request ends 500, a second observable
outcome. -/
theorem call_end_auth_failures_all_401_counterexample :
    verifyCallEnd "whsec_test" (some "t=2,v0=ß") "xyz" = .serverError ∧
    httpStatus (verifyCallEnd "whsec_test" (some "t=2,v0=ß") "xyz") = 500 ∧
    "ß" ≠ hmacSha256HexStr "whsec_test" ("2" ++ "." ++ "xyz") := by
  have h : verifyCallEnd "whsec_test" (some "t=2,v0=ß") "xyz" = .serverError := by decide
  refine ⟨h, by rw [h]; rfl, ?_⟩
  intro he
  have h1 : (hmacSha256HexStr "whsec_test" ("2" ++ "." ++ "xyz")).length = 64 := by
    unfold hmacSha256HexStr
    rw [length_hexdigest, length_hmacSha256]
  rw [← he] at h1
  exact absurd h1 (by decide)

/-- **C2 (amended)** — The authentication failures of the call-end
webhook — missing (or empty) header, parseable header with falsy `t` or
`v0`, and mismatch of an ASCII-only provided digest — each yield an
`unauthorized` outcome (HTTP 401) and nothing else, and in the
falsy-`t`/`v0` case the result does not depend on the HMAC function,
i.e. the request is rejected before any HMAC is computed; however a
provided digest containing a non-ASCII character makes
`compare_digest` raise, producing a 500 server error instead of 401. -/
theorem call_end_auth_failures_all_401 :
    (∀ (f : String → String → String) (S B : String),
        authenticate f S none B = .unauthorized "Missing ElevenLabs-Signature header" ∧
        authenticate f S (some "") B = .unauthorized "Missing ElevenLabs-Signature header") ∧
    (∀ (f g : String → String → String) (S B hdr : String) (parts : List (String × String)),
        parseSigHeader hdr = some parts →
        (pyFalsyS (pyDictGet parts "t") || pyFalsyS (pyDictGet parts "v0")) = true →
        authenticate f S (some hdr) B = .unauthorized "Invalid ElevenLabs-Signature format" ∧
        authenticate f S (some hdr) B = authenticate g S (some hdr) B) ∧
    (∀ (f : String → String → String) (S B T D hdr : String) (parts : List (String × String)),
        parseSigHeader hdr = some parts →
        pyDictGet parts "t" = some T →
        pyDictGet parts "v0" = some D →
        T ≠ "" → D ≠ "" →
        D ≠ f S (T ++ "." ++ B) →
        isAsciiStr (f S (T ++ "." ++ B)) = true →
        isAsciiStr D = true →
        authenticate f S (some hdr) B = .unauthorized "Invalid signature") ∧
    (∀ (f : String → String → String) (S B T D hdr : String) (parts : List (String × String)),
        parseSigHeader hdr = some parts →
        pyDictGet parts "t" = some T →
        pyDictGet parts "v0" = some D →
        T ≠ "" → D ≠ "" →
        isAsciiStr D = false →
        authenticate f S (some hdr) B = .serverError ∧
        httpStatus (authenticate f S (some hdr) B) = 500) ∧
    (∀ d : String, httpStatus (.unauthorized d) = 401) := by
  refine ⟨fun f S B => ⟨auth_missing_header f S B, auth_missing_header_empty f S B⟩,
    ?_, ?_, ?_, fun d => rfl⟩
  · intro f g S B hdr parts hp hff
    exact ⟨auth_format_fail f S B hdr parts hp hff,
      (auth_format_fail f S B hdr parts hp hff).trans
        (auth_format_fail g S B hdr parts hp hff).symm⟩
  · intro f S B T D hdr parts hp ht hv hT hD hne hEA hDA
    exact auth_reject f S T B D hdr parts hp ht hv hT hD hne hEA hDA
  · intro f S B T D hdr parts hp ht hv hT hD hDA
    have h := auth_type_error f S T B D hdr parts hp ht hv hT hD hDA
    exact ⟨h, by rw [h]; rfl⟩

/-- Witness for C2: the failure modes at concrete inputs, with two
distinct HMAC functions in the falsy-`v0` case and a non-ASCII provided
value for the server-error outcome. -/
theorem call_end_auth_failures_all_401_witness :
    authenticate (fun _ _ => "x") "s" none "b" =
      .unauthorized "Missing ElevenLabs-Signature header" ∧
    (authenticate (fun _ _ => "x") "s" (some "t=1,v0=") "b" =
        .unauthorized "Invalid ElevenLabs-Signature format" ∧
      authenticate (fun _ _ => "x") "s" (some "t=1,v0=") "b" =
        authenticate (fun _ _ => "y") "s" (some "t=1,v0=") "b") ∧
    authenticate (fun _ _ => "x") "s" (some "t=1,v0=deadbeef") "b" =
      .unauthorized "Invalid signature" ∧
    authenticate (fun _ _ => "x") "s" (some "t=1,v0=Ω") "b" = .serverError := by
  refine ⟨(call_end_auth_failures_all_401.1 (fun _ _ => "x") "s" "b").1, ?_, ?_, ?_⟩
  · exact call_end_auth_failures_all_401.2.1 (fun _ _ => "x") (fun _ _ => "y") "s" "b"
      "t=1,v0=" [("t", "1"), ("v0", "")] (by decide) (by decide)
  · exact call_end_auth_failures_all_401.2.2.1 (fun _ _ => "x") "s" "b" "1" "deadbeef"
      "t=1,v0=deadbeef" [("t", "1"), ("v0", "deadbeef")]
      (by decide) (by decide) (by decide) (by decide) (by decide) (by decide)
      (by decide) (by decide)
  · exact (call_end_auth_failures_all_401.2.2.2.1 (fun _ _ => "x") "s" "b" "1" "Ω"
      "t=1,v0=Ω" [("t", "1"), ("v0", "Ω")]
      (by decide) (by decide) (by decide) (by decide) (by decide) (by decide)).1

/-- **C10** — A present (non-empty) but malformed ElevenLabs-Signature
header — any comma-separated segment splitting into a number of
`=`-parts other than two, e.g. `"t=1,v0"` or a segment with two `=` —
makes the header-parsing step raise, so the request ends in a 500 server
error, not the 401 of the other authentication failures (an empty
header value is instead caught by line 196's falsiness check). -/
theorem call_end_malformed_header_500 :
    (∀ (f : String → String → String) (S B hdr : String),
        hdr ≠ "" →
        ((pySplit hdr ',').map (fun part => pySplit part '=')).all
          (fun kv => kv.length == 2) = false →
        authenticate f S (some hdr) B = .serverError) ∧
    (∀ (f : String → String → String) (S B : String),
        authenticate f S (some "t=1,v0") B = .serverError ∧
        authenticate f S (some "t=1,v0=a=b") B = .serverError) ∧
    httpStatus .serverError = 500 ∧ httpStatus .serverError ≠ 401 := by
  have hgen : ∀ (f : String → String → String) (S B hdr : String),
      hdr ≠ "" →
      ((pySplit hdr ',').map (fun part => pySplit part '=')).all
        (fun kv => kv.length == 2) = false →
      authenticate f S (some hdr) B = .serverError := by
    intro f S B hdr hne hbad
    apply auth_parse_fail f S B hdr hne
    unfold parseSigHeader
    simp [hbad]
  refine ⟨hgen, ?_, rfl, by decide⟩
  intro f S B
  exact ⟨hgen f S B "t=1,v0" (by decide) (by decide),
    hgen f S B "t=1,v0=a=b" (by decide) (by decide)⟩

/-- Witness for C10: a malformed non-empty header at a concrete input
yields the server-error outcome. -/
theorem call_end_malformed_header_500_witness :
    authenticate (fun _ _ => "x") "s" (some "t=1,v0") "b" = .serverError :=
  call_end_malformed_header_500.1 (fun _ _ => "x") "s" "b" "t=1,v0" (by decide) (by decide)

/-! ## Call record persister (`handle_call_end`, `main.py` lines 231–303)

The post-authentication half of the handler, on the already-parsed JSON
payload.  The datastore is injected: `usersByPhone` is the
`users`-by-`phone_number` lookup, `nextId` the id the datastore would
assign to a newly created user; performed inserts are returned as an
explicit write list. -/

/-- Python `", ".join(...)`-style joining. -/
def joinSep (sep : String) : List String → String
  | [] => ""
  | [x] => x
  | x :: y :: rest => x ++ sep ++ joinSep sep (y :: rest)

/-- Python `str.capitalize()` restricted to ASCII case mapping: first
character uppercased, the rest lowercased. -/
def pyCapitalize (s : String) : String :=
  match s.data with
  | [] => ""
  | c :: rest => String.mk (c.toUpper :: rest.map Char.toLower)

/-- One transcript entry of the webhook payload; `none` models an absent
key (`entry.get("role", "unknown")`, `entry.get("message", "")`). -/
structure TEntry where
  role : Option String
  message : Option String
deriving DecidableEq, Repr

/-- The fields of the call-end JSON payload read by the handler.
`external_number` is `data.metadata.phone_call.external_number`;
`system_caller_id` is the fallback
`conversation_initiation_client_data.dynamic_variables.system__caller_id`. -/
structure CallEndData where
  conversation_id : Option String
  external_number : Option String
  system_caller_id : Option String
  transcript : List TEntry
  call_duration_secs : Option Int
  happiness_level : Option String
  call_direction : Option String
deriving DecidableEq, Repr

/-- Lines 250–257: one `"<Role>: <message>"` line per entry with a
non-empty message, joined by newlines. -/
def formatTranscript (ts : List TEntry) : String :=
  joinSep "\n"
    (ts.filterMap (fun e =>
      let message := e.message.getD ""
      if message == "" then none
      else some (pyCapitalize (e.role.getD "unknown") ++ ": " ++ message)))

/-- Lines 232–237: `external_number`, falling back to
`system__caller_id` when falsy. -/
def resolveCallerId (d : CallEndData) : Option String :=
  if pyFalsyS d.external_number then d.system_caller_id else d.external_number

/-- A datastore write performed by the handler. -/
inductive DbWrite where
  | insertUser (phone userName : String)
  | insertConversation (userId : Nat) (phone transcript : String)
      (durationSecs : Option Int) (happiness : Option String) (direction : Option String)
deriving DecidableEq, Repr

/-- The handler's JSON response body. -/
structure ApiResp where
  status : String
  message : String
deriving DecidableEq, Repr

/-- Lines 231–303 of `handle_call_end` (after signature verification):
validation, transcript formatting, user lookup-or-create, and the
conversation insert. -/
def persistCallEnd (usersByPhone : String → Option Nat) (nextId : Nat)
    (d : CallEndData) : ApiResp × List DbWrite :=
  let callerId := resolveCallerId d
  if pyFalsyS d.conversation_id || pyFalsyS callerId then
    (⟨"error", "Missing required fields"⟩, [])
  else if d.transcript.isEmpty then
    (⟨"error", "No transcript available"⟩, [])
  else
    let fullTranscript := formatTranscript d.transcript
    let normalized := pyNormalize (callerId.getD "")
    match usersByPhone normalized with
    | some userId =>
        (⟨"success", "Transcript and additional data saved"⟩,
         [.insertConversation userId normalized fullTranscript
            d.call_duration_secs d.happiness_level d.call_direction])
    | none =>
        (⟨"success", "Transcript and additional data saved"⟩,
         [.insertUser normalized "Unknown User",
          .insertConversation nextId normalized fullTranscript
            d.call_duration_secs d.happiness_level d.call_direction])

/-- The transcript texts stored by a write list. -/
def storedTranscripts (ws : List DbWrite) : List String :=
  ws.filterMap (fun w =>
    match w with
    | .insertConversation _ _ t _ _ _ => some t
    | _ => none)

/-- **C5** — An authenticated call-end payload with a falsy conversation
id or caller phone (after both fallback locations) yields the structured
"Missing required fields" error and no datastore write; with both
present but an empty transcript list it yields the "No transcript
available" error, also without writes. -/
theorem call_end_missing_fields_no_write :
    ∀ (db : String → Option Nat) (nextId : Nat) (d : CallEndData),
      ((pyFalsyS d.conversation_id || pyFalsyS (resolveCallerId d)) = true →
        persistCallEnd db nextId d = (⟨"error", "Missing required fields"⟩, [])) ∧
      ((pyFalsyS d.conversation_id || pyFalsyS (resolveCallerId d)) = false →
        d.transcript = [] →
        persistCallEnd db nextId d = (⟨"error", "No transcript available"⟩, [])) := by
  intro db nextId d
  constructor
  · intro h
    unfold persistCallEnd
    simp [h]
  · intro h ht
    unfold persistCallEnd
    simp [h, ht]

/-- Witness for C5: concrete payloads missing the conversation id, and
missing the transcript, are rejected without writes. -/
theorem call_end_missing_fields_no_write_witness :
    persistCallEnd (fun _ => none) 1
        ⟨none, some "+15550100", none, [⟨some "agent", some "Hi"⟩], none, none, none⟩ =
      (⟨"error", "Missing required fields"⟩, []) ∧
    persistCallEnd (fun _ => none) 1
        ⟨some "conv1", some "+15550100", none, [], none, none, none⟩ =
      (⟨"error", "No transcript available"⟩, []) :=
  ⟨(call_end_missing_fields_no_write (fun _ => none) 1
      ⟨none, some "+15550100", none, [⟨some "agent", some "Hi"⟩], none, none, none⟩).1
      (by decide),
   (call_end_missing_fields_no_write (fun _ => none) 1
      ⟨some "conv1", some "+15550100", none, [], none, none, none⟩).2
      (by decide) (by decide)⟩

/-- **C8** — The stored transcript text is one `"<Role>: <message>"`
line per turn (role capitalized), newline-joined, skipping entries with
an empty message; it equals the filter-then-map reference form, is
exactly what the conversation insert stores, and on
`[(agent, Hi), (user, Hello)]` equals `"Agent: Hi\nUser: Hello"`. -/
theorem call_end_transcript_formatting :
    (∀ ts : List TEntry,
        formatTranscript ts =
          joinSep "\n"
            ((ts.filter (fun e => e.message.getD "" != "")).map
              (fun e => pyCapitalize (e.role.getD "unknown") ++ ": " ++ e.message.getD ""))) ∧
    (∀ (db : String → Option Nat) (nextId : Nat) (d : CallEndData),
        (pyFalsyS d.conversation_id || pyFalsyS (resolveCallerId d)) = false →
        d.transcript ≠ [] →
        storedTranscripts (persistCallEnd db nextId d).2 = [formatTranscript d.transcript]) ∧
    formatTranscript [⟨some "agent", some "Hi"⟩, ⟨some "user", some "Hello"⟩] =
      "Agent: Hi\nUser: Hello" := by
  refine ⟨?_, ?_, by decide⟩
  · intro ts
    unfold formatTranscript
    congr 1
    induction ts with
    | nil => rfl
    | cons e rest ih =>
      by_cases hm : e.message.getD "" = ""
      · simp [List.filterMap_cons, List.filter_cons, hm]
        simpa using ih
      · simp [List.filterMap_cons, List.filter_cons, hm]
        simpa using ih
  · intro db nextId d h ht
    unfold persistCallEnd
    simp only [h, Bool.false_eq_true, if_false]
    rw [if_neg (by simpa [List.isEmpty_iff] using ht)]
    cases hdb : db (pyNormalize ((resolveCallerId d).getD "")) with
    | some userId => simp [hdb, storedTranscripts]
    | none => simp [hdb, storedTranscripts]

/-- Witness for C8: the concrete example payload stores exactly
`"Agent: Hi\nUser: Hello"`. -/
theorem call_end_transcript_formatting_witness :
    storedTranscripts
        (persistCallEnd (fun _ => none) 7
          ⟨some "conv1", some "1 555 0100", none,
            [⟨some "agent", some "Hi"⟩, ⟨some "user", some "Hello"⟩],
            some 42, some "happy", some "inbound"⟩).2 =
      ["Agent: Hi\nUser: Hello"] := by
  have h := call_end_transcript_formatting.2.1 (fun _ => none) 7
    ⟨some "conv1", some "1 555 0100", none,
      [⟨some "agent", some "Hi"⟩, ⟨some "user", some "Hello"⟩],
      some 42, some "happy", some "inbound"⟩ (by decide) (by decide)
  rw [h, call_end_transcript_formatting.2.2]

/-! ## Profile assembler (`get_loved_one_profile_query`, `main.py` lines 305–434)

Datastore queries are injected as `Except`-valued functions: `.error e`
models an exception raised by the query (caught by the handler's
`except`, which returns the `"Valued Customer"`/error object). -/

/-- Python `'needle' in hay` on character lists. -/
def containsL (pat : List Char) : List Char → Bool
  | [] => pat.isEmpty
  | c :: t => pat.isPrefixOf (c :: t) || containsL pat t

/-- Python substring test `pat in hay`. -/
def containsSub (hay pat : String) : Bool :=
  containsL pat.data hay.data

/-- `str.lower()` restricted to ASCII case mapping. -/
def lowerStr (s : String) : String :=
  String.mk (s.data.map Char.toLower)

/-- The `time_taken` column: either a list of tags or one
comma-separated string (both shapes handled at lines 367–372; tags are
modelled as strings, the `str(t)` coercion of non-string tags is out of
scope). -/
inductive TimeTaken where
  | tlist (tags : List String)
  | tstr (raw : String)
deriving DecidableEq, Repr

/-- The raw time-of-day tags of a medication row. -/
def tagsOf : TimeTaken → List String
  | .tlist tags => tags
  | .tstr raw => (pySplit raw ',').map pyStrip

/-- Lines 367–372: lowercased tag list (`t.lower()` per list element, or
`t.strip().lower()` per comma-separated piece). -/
def parseTimes : TimeTaken → List String
  | .tlist tags => tags.map lowerStr
  | .tstr raw => (pySplit raw ',').map (fun t => lowerStr (pyStrip t))

/-- A row of the `medications` table (the columns the handler reads). -/
structure MedRow where
  medication_name : String
  time_taken : TimeTaken
deriving DecidableEq, Repr

/-- The loop body of lines 363–379: append the medication's name to each
bucket whose name occurs in some lowercased tag. -/
def bucketStep (acc : List String × List String × List String) (med : MedRow) :
    List String × List String × List String :=
  let times := parseTimes med.time_taken
  (if times.any (fun t => containsSub t "morning") then acc.1 ++ [med.medication_name] else acc.1,
   if times.any (fun t => containsSub t "afternoon") then acc.2.1 ++ [med.medication_name]
     else acc.2.1,
   if times.any (fun t => containsSub t "evening") then acc.2.2 ++ [med.medication_name]
     else acc.2.2)

/-- Lines 358–379: the three buckets accumulated over the rows. -/
def bucketMeds (meds : List MedRow) : List String × List String × List String :=
  meds.foldl bucketStep ([], [], [])

/-- `", ".join(bucket) if bucket else "none"` (lines 405–407). -/
def joinOrNone (b : List String) : String :=
  if b.isEmpty then "none" else joinSep ", " b

/-- The `medications` object of the clean profile (lines 403–408). -/
structure MedsOut where
  has_medications : Bool
  morning_medications : String
  afternoon_medications : String
  evening_medications : String
deriving DecidableEq, Repr

/-- Lines 403–408: `has_medications = len(medications) > 0` and the
three joined bucket fields. -/
def buildMedsOut (meds : List MedRow) : MedsOut :=
  let b := bucketMeds meds
  ⟨decide (0 < meds.length), joinOrNone b.1, joinOrNone b.2.1, joinOrNone b.2.2⟩

/-- The reference bucket of the specification: the names of the rows
some of whose raw tags contain the bucket name as a case-insensitive
substring, in row order. -/
def specBucket (bucket : String) (meds : List MedRow) : List String :=
  (meds.filter
      (fun med => (tagsOf med.time_taken).any (fun tag => containsSub (lowerStr tag) bucket))).map
    (fun med => med.medication_name)

theorem parseTimes_eq_map_lower (tt : TimeTaken) :
    parseTimes tt = (tagsOf tt).map lowerStr := by
  cases tt with
  | tlist tags => rfl
  | tstr raw => simp [parseTimes, tagsOf, List.map_map]

/-- The per-row bucket test of the code equals the specification's
case-insensitive-substring test on raw tags. -/
theorem bucketTest_eq (med : MedRow) (bucket : String) :
    (parseTimes med.time_taken).any (fun t => containsSub t bucket) =
      (tagsOf med.time_taken).any (fun tag => containsSub (lowerStr tag) bucket) := by
  rw [parseTimes_eq_map_lower, List.any_map]
  rfl

theorem bucketMeds_go (meds : List MedRow) (m a e : List String) :
    meds.foldl bucketStep (m, a, e) =
      (m ++ specBucket "morning" meds, a ++ specBucket "afternoon" meds,
       e ++ specBucket "evening" meds) := by
  induction meds generalizing m a e with
  | nil => simp [specBucket]
  | cons med rest ih =>
    simp only [List.foldl_cons]
    rw [show bucketStep (m, a, e) med =
        (if (parseTimes med.time_taken).any (fun t => containsSub t "morning") then
           m ++ [med.medication_name] else m,
         if (parseTimes med.time_taken).any (fun t => containsSub t "afternoon") then
           a ++ [med.medication_name] else a,
         if (parseTimes med.time_taken).any (fun t => containsSub t "evening") then
           e ++ [med.medication_name] else e) from rfl]
    rw [ih]
    simp only [bucketTest_eq]
    by_cases h1 : (tagsOf med.time_taken).any (fun tag => containsSub (lowerStr tag) "morning") <;>
      by_cases h2 :
        (tagsOf med.time_taken).any (fun tag => containsSub (lowerStr tag) "afternoon") <;>
      by_cases h3 :
        (tagsOf med.time_taken).any (fun tag => containsSub (lowerStr tag) "evening") <;>
      simp [h1, h2, h3, specBucket, List.filter_cons]

theorem bucketMeds_eq_spec (meds : List MedRow) :
    bucketMeds meds =
      (specBucket "morning" meds, specBucket "afternoon" meds, specBucket "evening" meds) := by
  unfold bucketMeds
  rw [bucketMeds_go]
  simp

/-- **C6** — Each medication lands in the morning/afternoon/evening
bucket exactly when some time-of-day tag contains the bucket name as a
case-insensitive substring (one row may land in several buckets); each
bucket field is the `", "`-join of the bucket or the literal `"none"`
when empty; `has_medications` holds iff at least one row exists; and a
row tagged `["Morning", "Evening"]` appears in the morning and evening
fields but not the afternoon one. -/
theorem medication_bucketing :
    (∀ meds : List MedRow,
        (buildMedsOut meds).morning_medications = joinOrNone (specBucket "morning" meds) ∧
        (buildMedsOut meds).afternoon_medications = joinOrNone (specBucket "afternoon" meds) ∧
        (buildMedsOut meds).evening_medications = joinOrNone (specBucket "evening" meds) ∧
        ((buildMedsOut meds).has_medications = true ↔ meds ≠ [])) ∧
    buildMedsOut [⟨"VitD", .tlist ["Morning", "Evening"]⟩] = ⟨true, "VitD", "none", "VitD"⟩ := by
  constructor
  · intro meds
    refine ⟨?_, ?_, ?_, ?_⟩
    · unfold buildMedsOut
      rw [bucketMeds_eq_spec]
    · unfold buildMedsOut
      rw [bucketMeds_eq_spec]
    · unfold buildMedsOut
      rw [bucketMeds_eq_spec]
    · unfold buildMedsOut
      cases meds with
      | nil => simp
      | cons m rest => simp
  · decide

/-! ## Appointment summarization (`initiate_call`, `main.py` lines 539–557) -/

/-- An appointment object of the clean profile (lines 383–389). -/
structure ApptOut where
  title : String
  date : String
  time : String
  frequency : String
deriving DecidableEq, Repr

/-- The appointment-related dynamic variables set at lines 539–557;
`none` in the `next_*` fields means the variable is not set (empty
appointment list). -/
structure ApptVars where
  has_upcoming_appointment : String
  next_appointment_title : Option String
  next_appointment_date : Option String
  next_appointment_time : Option String
  upcoming_appointments : String
deriving DecidableEq, Repr

/-- Line 552: `f"{title} on {date} at {time}"`. -/
def fmtAppt (a : ApptOut) : String :=
  a.title ++ " on " ++ a.date ++ " at " ++ a.time

/-- Lines 539–557: the next-appointment fields from the head of the
list, the summary over `appointments[:3]`, and the defaults for the
empty list. -/
def buildApptVars (appts : List ApptOut) : ApptVars :=
  match appts with
  | [] => ⟨"false", none, none, none, "none"⟩
  | a :: rest =>
      ⟨"true", some a.title, some a.date, some a.time,
       joinSep ", " (((a :: rest).take 3).map fmtAppt)⟩

/-- **C7** — The appointments summary contains at most the first three
records in order, each as `"<title> on <date> at <time>"`, comma-joined;
the head record's fields are exposed as the next appointment; and with
no appointments `has_upcoming_appointment = "false"` and the summary is
`"none"` — shown on a four-appointment list, which is truncated to its
first three entries. -/
theorem appointment_summary :
    (∀ (a : ApptOut) (rest : List ApptOut),
        buildApptVars (a :: rest) =
          ⟨"true", some a.title, some a.date, some a.time,
           joinSep ", " (((a :: rest).take 3).map fmtAppt)⟩ ∧
        (((a :: rest).take 3).map fmtAppt).length ≤ 3) ∧
    buildApptVars [] = ⟨"false", none, none, none, "none"⟩ ∧
    buildApptVars
        [⟨"Dentist", "2025-05-01", "10:00", "once"⟩, ⟨"GP", "2025-05-02", "11:00", "once"⟩,
         ⟨"Eye exam", "2025-05-03", "12:00", "once"⟩, ⟨"PT", "2025-05-04", "13:00", "once"⟩] =
      ⟨"true", some "Dentist", some "2025-05-01", some "10:00",
       "Dentist on 2025-05-01 at 10:00, GP on 2025-05-02 at 11:00, Eye exam on 2025-05-03 at 12:00"⟩ := by
  refine ⟨?_, rfl, by decide⟩
  intro a rest
  refine ⟨rfl, ?_⟩
  simp only [List.length_map]
  exact le_trans (List.length_take_le 3 (a :: rest)) (le_refl 3)

/-! ## Full profile endpoint and conversation initiation
(`get_loved_one_profile_query` lines 305–434,
`handle_conversation_initiation` lines 82–183) -/

/-- A row of the `users` table (the columns the handler selects). -/
structure UserRow where
  id : Nat
  user_name : String
deriving DecidableEq, Repr

/-- A row of the `loved_ones` table. -/
structure LovedOneRow where
  id : Nat
  name : String
  nickname : String
  age_range : String
  gender : String
  relationship_to_user : String
deriving DecidableEq, Repr

/-- A row of the `call_preferences` table; `none` models an absent key
in the row dict (`call_preferences.get(key, default)`). -/
structure CallPrefRow where
  call_length : Option String
  voice_preference : Option String
  call_frequency : Option String
  medication_reminders : Option Bool
  sleep_quality : Option Bool
  mood_check : Option Bool
  upcoming_appointments : Option Bool
deriving DecidableEq, Repr

/-- A row of the `notification_settings` table. -/
structure NotifRow where
  daily_call_summary : Option Bool
  missed_calls : Option Bool
  low_sentiment : Option Bool
deriving DecidableEq, Repr

/-- A row of the `consolidated_appointments` table. -/
structure ApptRow where
  appointment_title : String
  appointment_date : String
  appointment_time : String
  frequency : String
deriving DecidableEq, Repr

/-- The injected datastore: each table query keyed as in the source;
`.error e` models an exception raised while querying. -/
structure ProfileDb where
  usersByPhone : String → Except String (List UserRow)
  lovedOnesByUser : Nat → Except String (List LovedOneRow)
  medsByLovedOne : Nat → Except String (List MedRow)
  prefsByLovedOne : Nat → Except String (List CallPrefRow)
  notifsByLovedOne : Nat → Except String (List NotifRow)
  apptsByLovedOne : Nat → Except String (List ApptRow)

/-- The `loved_one` object of the clean profile (lines 396–402). -/
structure LovedOneOut where
  name : String
  nickname : String
  age_range : String
  gender : String
  relationship : String
deriving DecidableEq, Repr

/-- The `call_settings` object of the clean profile (lines 409–419). -/
structure SettingsOut where
  length : String
  voice : String
  frequency : String
  medication_reminders : Bool
  sleep_quality : Bool
  mood_check : Bool
  upcoming_appointments : Bool
deriving DecidableEq, Repr

/-- The `notifications` object of the clean profile (lines 420–424). -/
structure NotifOut where
  daily_summary : Bool
  missed_calls : Bool
  low_sentiment : Bool
deriving DecidableEq, Repr

/-- The clean profile built at lines 392–426. -/
structure CleanProfile where
  caller_name : String
  loved_one : LovedOneOut
  medications : MedsOut
  call_settings : SettingsOut
  notifications : NotifOut
  appointments : List ApptOut
deriving DecidableEq, Repr

/-- The endpoint's response: either one of the
`{"caller_name": ..., "error": ...}` objects (user not found, no loved
one, or exception) or the clean profile. -/
inductive ProfileResp where
  | errorObj (caller_name error : String)
  | profile (p : CleanProfile)
deriving DecidableEq, Repr

/-- The keys of the JSON object each response shape serializes to
(the dict literals at lines 323, 333–336, 392–426, 434). -/
def respKeys : ProfileResp → List String
  | .errorObj _ _ => ["caller_name", "error"]
  | .profile _ =>
      ["caller", "loved_one", "medications", "call_settings", "notifications", "appointments"]

/-- `row.get(key, default)` on an optional first row (`rows[0] if rows
else {}`). -/
def rowGet {α β : Type} (row : Option α) (f : α → Option β) (d : β) : β :=
  match row with
  | none => d
  | some r => (f r).getD d

/-- The `try` body of `get_loved_one_profile_query` (lines 316–429) in
the exception monad, on the already-normalized number. -/
def runProfile (db : ProfileDb) (normalized : String) : Except String ProfileResp := do
  let users ← db.usersByPhone normalized
  match users with
  | [] => return .errorObj "Valued Customer" "User not found"
  | u :: _ =>
    let lovedOnes ← db.lovedOnesByUser u.id
    match lovedOnes with
    | [] => return .errorObj u.user_name "No loved one profile found"
    | lo :: _ =>
      let meds ← db.medsByLovedOne lo.id
      let prefs ← db.prefsByLovedOne lo.id
      let notifs ← db.notifsByLovedOne lo.id
      let appts ← db.apptsByLovedOne lo.id
      return .profile
        { caller_name := u.user_name
          loved_one := ⟨lo.name, lo.nickname, lo.age_range, lo.gender, lo.relationship_to_user⟩
          medications := buildMedsOut meds
          call_settings :=
            ⟨rowGet prefs.head? (fun r => r.call_length) "medium",
             rowGet prefs.head? (fun r => r.voice_preference) "female",
             rowGet prefs.head? (fun r => r.call_frequency) "daily check ins",
             rowGet prefs.head? (fun r => r.medication_reminders) false,
             rowGet prefs.head? (fun r => r.sleep_quality) false,
             rowGet prefs.head? (fun r => r.mood_check) false,
             rowGet prefs.head? (fun r => r.upcoming_appointments) false⟩
          notifications :=
            ⟨rowGet notifs.head? (fun r => r.daily_call_summary) false,
             rowGet notifs.head? (fun r => r.missed_calls) false,
             rowGet notifs.head? (fun r => r.low_sentiment) false⟩
          appointments := appts.map (fun r =>
            ⟨r.appointment_title, r.appointment_date, r.appointment_time, r.frequency⟩) }

/-- `get_loved_one_profile_query`: normalization, the `try` body, and
the `except` fallback (lines 431–434), which answers
`{"caller_name": "Valued Customer", "error": str(e)}`. -/
def getLovedOneProfile (db : ProfileDb) (phone : String) : ProfileResp :=
  match runProfile db (pyNormalize phone) with
  | .ok r => r
  | .error e => .errorObj "Valued Customer" e

/-- `str(b).lower()` on a Python boolean. -/
def pyBoolStr (b : Bool) : String := if b then "true" else "false"

/-- Lines 157–167 (and 559–570): hour bucket for `time_of_day`. -/
def timeOfDay (hour : Nat) : String :=
  if 5 ≤ hour ∧ hour < 12 then "morning"
  else if 12 ≤ hour ∧ hour < 17 then "afternoon"
  else "evening"

/-- The dynamic-variable dict built at lines 123–167 from a successful
profile fetch. -/
def convInitVars (p : CleanProfile) (hour : Nat) : List (String × String) :=
  [("caller_name", p.caller_name),
   ("loved_one_name", p.loved_one.name),
   ("loved_one_nickname", p.loved_one.nickname),
   ("loved_one_gender", p.loved_one.gender),
   ("loved_one_relationship", p.loved_one.relationship),
   ("has_medications", pyBoolStr p.medications.has_medications),
   ("morning_medications", p.medications.morning_medications),
   ("afternoon_medications", p.medications.afternoon_medications),
   ("evening_medications", p.medications.evening_medications),
   ("call_length", p.call_settings.length),
   ("voice_preference", p.call_settings.voice),
   ("call_frequency", p.call_settings.frequency),
   ("check_medications", pyBoolStr p.call_settings.medication_reminders),
   ("check_sleep", pyBoolStr p.call_settings.sleep_quality),
   ("check_mood", pyBoolStr p.call_settings.mood_check),
   ("check_appointments", pyBoolStr p.call_settings.upcoming_appointments),
   ("notify_daily_summary", pyBoolStr p.notifications.daily_summary),
   ("notify_missed_calls", pyBoolStr p.notifications.missed_calls),
   ("notify_low_sentiment", pyBoolStr p.notifications.low_sentiment),
   ("time_of_day", timeOfDay hour)]

/-- `handle_conversation_initiation` (lines 82–183): the returned
`dynamic_variables` dict.  `fetch` is the HTTP self-call to the profile
endpoint; `.error e` models any exception inside the `try` (caught at
lines 174–183, which answer only `caller_name = "there"`). -/
def handleConvInit (callerId : Option String) (fetch : Except String ProfileResp)
    (hour : Nat) : List (String × String) :=
  if pyFalsyS callerId then [("caller_name", "there")]
  else
    match fetch with
    | .error _ => [("caller_name", "there")]
    | .ok (.errorObj cn _) => [("caller_name", cn)]
    | .ok (.profile p) => convInitVars p hour

/-- A datastore whose every query raises. -/
def dbBoom : ProfileDb :=
  ⟨fun _ => .error "boom", fun _ => .error "boom", fun _ => .error "boom",
   fun _ => .error "boom", fun _ => .error "boom", fun _ => .error "boom"⟩

/-- **C4 counterexample** — On a lookup that raises, the profile
endpoint's response is not an object containing only a caller-name
fallback: it carries the caller-name fallback `"Valued Customer"`
together with an `"error"` field holding the failure detail. -/
theorem profile_error_fallback_counterexample :
    getLovedOneProfile dbBoom "+15550100" = .errorObj "Valued Customer" "boom" ∧
    respKeys (getLovedOneProfile dbBoom "+15550100") ≠ ["caller_name"] := by
  constructor
  · rfl
  · decide

/-- **C4 (amended)** — An unexpected error during profile assembly never
propagates: the profile endpoint catches it and returns the
`"Valued Customer"` caller-name fallback together with an `error` field
carrying the detail (keys exactly `caller_name`, `error`); an exception
inside conversation initiation yields a context holding only
`caller_name = "there"`. -/
theorem profile_error_fallback :
    (∀ (db : ProfileDb) (phone e : String),
        runProfile db (pyNormalize phone) = .error e →
        getLovedOneProfile db phone = .errorObj "Valued Customer" e ∧
        respKeys (getLovedOneProfile db phone) = ["caller_name", "error"]) ∧
    (∀ (callerId : Option String) (hour : Nat) (e : String),
        handleConvInit callerId (.error e) hour = [("caller_name", "there")]) := by
  constructor
  · intro db phone e h
    have hmain : getLovedOneProfile db phone = .errorObj "Valued Customer" e := by
      unfold getLovedOneProfile
      rw [h]
    exact ⟨hmain, by rw [hmain]; rfl⟩
  · intro callerId hour e
    unfold handleConvInit
    split
    · rfl
    · rfl

/-- Witness for C4: the raising datastore is caught and answered with
the fallback-plus-error object; a raising conversation initiation
answers only `caller_name = "there"`. -/
theorem profile_error_fallback_witness :
    (getLovedOneProfile dbBoom "+15550100" = .errorObj "Valued Customer" "boom" ∧
      respKeys (getLovedOneProfile dbBoom "+15550100") = ["caller_name", "error"]) ∧
    handleConvInit (some "+15550100") (.error "boom") 9 = [("caller_name", "there")] :=
  ⟨profile_error_fallback.1 dbBoom "+15550100" "boom" rfl,
   profile_error_fallback.2 (some "+15550100") 9 "boom"⟩

/-! ## Session orchestrator (`handle_media_stream`, `main.py` lines 436–474)

The handler's control flow as the trace of calls it performs.  The loop
over `websocket.iter_text()` can end in three ways: normal closure of
the stream, a `WebSocketDisconnect`, or any other exception during frame
relay; the `finally` block then runs the teardown. -/

/-- The externally visible actions of the media-stream handler. -/
inductive MsAction where
  | acceptWs
  | startSession
  | handleFrame (i : Nat)
  | logDisconnect
  | logError
  | endSession
  | waitSessionEnd
deriving DecidableEq, Repr

/-- How the frame-relay loop ends, after `frames` relayed frames. -/
inductive StreamOutcome where
  | closed (frames : Nat)
  | disconnect (frames : Nat)
  | fault (frames : Nat)
deriving DecidableEq, Repr

/-- Lines 436–474: accept, start the session, relay frames until the
outcome, log per the matching `except`, then the `finally` teardown
(`end_session` and `wait_for_session_end`). -/
def handleMediaStream : StreamOutcome → List MsAction
  | .closed n =>
      [.acceptWs, .startSession] ++ (List.range n).map MsAction.handleFrame ++
      [.endSession, .waitSessionEnd]
  | .disconnect n =>
      [.acceptWs, .startSession] ++ (List.range n).map MsAction.handleFrame ++
      [.logDisconnect, .endSession, .waitSessionEnd]
  | .fault n =>
      [.acceptWs, .startSession] ++ (List.range n).map MsAction.handleFrame ++
      [.logError, .endSession, .waitSessionEnd]

/-- The session lifecycle states of the specification. -/
inductive SessState where
  | connecting
  | active
  | closing
  | closedS
deriving DecidableEq, Repr

/-- Modelled from the spec: the SDK `Conversation` teardown
(`end_session` / `wait_for_session_end`), which is library code not in
`src/`. A teardown request moves the session to `Closing`; requested
again while already `Closing`/`Closed` it is a no-op, not an error
(the Bool is whether the call errors). -/
def endSessionStep : SessState → SessState × Bool
  | .connecting => (.closing, false)
  | .active => (.closing, false)
  | .closing => (.closing, false)
  | .closedS => (.closedS, false)

theorem count_frames_zero (n : Nat) (a : MsAction) (h : ∀ i, a ≠ .handleFrame i) :
    ((List.range n).map MsAction.handleFrame).count a = 0 := by
  rw [List.count_eq_zero]
  intro hmem
  obtain ⟨i, _, hi⟩ := List.mem_map.mp hmem
  exact h i hi.symm

/-- **C3** — On every exit path of the media-stream handler — normal
stream closure, websocket disconnect, or an exception during frame
relay — `end_session` and `wait_for_session_end` each occur exactly once
in the handler's trace; and a teardown request on an already
`Closing`/`Closed` session leaves the state unchanged without error. -/
theorem session_teardown_exactly_once :
    (∀ o : StreamOutcome,
        (handleMediaStream o).count .endSession = 1 ∧
        (handleMediaStream o).count .waitSessionEnd = 1) ∧
    (∀ s : SessState, s = .closing ∨ s = .closedS → endSessionStep s = (s, false)) := by
  constructor
  · intro o
    have he : ∀ n : Nat, ((List.range n).map MsAction.handleFrame).count MsAction.endSession = 0 :=
      fun n => count_frames_zero n _ (fun i => by simp)
    have hw : ∀ n : Nat,
        ((List.range n).map MsAction.handleFrame).count MsAction.waitSessionEnd = 0 :=
      fun n => count_frames_zero n _ (fun i => by simp)
    cases o with
    | closed n =>
      constructor <;> simp [handleMediaStream, List.count_append, he n, hw n, List.count_cons]
    | disconnect n =>
      constructor <;> simp [handleMediaStream, List.count_append, he n, hw n, List.count_cons]
    | fault n =>
      constructor <;> simp [handleMediaStream, List.count_append, he n, hw n, List.count_cons]
  · intro s hs
    rcases hs with h | h <;> subst h <;> rfl

/-- Witness for C3: a faulting two-frame session tears down exactly
once, and teardown on a `Closing` session is a no-op. -/
theorem session_teardown_exactly_once_witness :
    (handleMediaStream (.fault 2)).count .endSession = 1 ∧
    endSessionStep .closing = (.closing, false) :=
  ⟨(session_teardown_exactly_once.1 (.fault 2)).1,
   session_teardown_exactly_once.2 .closing (Or.inl rfl)⟩

end Spec2Proof
